import Mathlib

/-!
Shallow embedding of the `RabbitMQBroker` client facade of the
rabbitmq-connector repository.

The repository ships three sibling implementations of the same class:

* an event-emitter variant (`class RabbitMQBroker extends EventEmitter`)
  with a private `ensureChannel()` helper; its public methods catch every
  failure and re-emit it as an `"error"` event instead of rethrowing —
  embedded here as namespace `Emitter`;
* a direct variant (the compiled `RabbitMQBroker` with managed
  acknowledgment in `consume`): methods throw when the channel is absent
  and rethrow broker rejections; it has no event bus — namespace `Direct`;
* a plain TypeScript variant holding an `EventEmitter` member whose
  methods also throw, whose `publishToExchange` takes no exchange-type
  parameter (it always asserts type `"topic"`), and whose `consume`
  delegates acknowledgment to the handler — namespace `P5`.

Each method is embedded as a pure function from a broker state and an
environment (the oracle deciding which broker round-trips succeed) to an
`Outcome`: the successor state, the ordered list of channel operations
issued, the ordered list of emitted notifications, and the call's result
(`Except` models a rejected promise).  `console.log`/`console.error`
output is not modelled.  The per-delivery closure that `consume` installs
on the channel is embedded separately as `handleDelivery`.
-/

namespace RabbitMQ

/-- Exchange types accepted by the source: "direct" | "topic" | "fanout" | "headers". -/
inductive ExchangeType
  | direct
  | topic
  | fanout
  | headers
deriving DecidableEq

/-- Queue assertion options.  `deadLetterExchange` models the
dead-letter-exchange argument, written in the sources either as
`deadLetterExchange: dlx` or as `arguments: { "x-dead-letter-exchange": dlx }`
(amqplib encodes both as the same broker argument). -/
structure QueueOpts where
  durable : Bool
  deadLetterExchange : Option String
deriving DecidableEq

/-- Publish options (`Options.Publish`); only the durability flag is relevant. -/
structure PublishOpts where
  persistent : Option Bool
deriving DecidableEq

/-- A payload passed to `publish`/`publishToExchange`: `Buffer | string`. -/
inductive Payload
  | buf (bytes : List Nat)
  | str (text : String)
deriving DecidableEq

/-- Byte encoding of a text payload (`Buffer.from(message)` encodes the
string as UTF-8). -/
def strBytes (t : String) : List Nat :=
  t.data.flatMap (fun c => (String.utf8EncodeChar c).map (fun b => b.toNat))

/-- `Buffer.isBuffer(message) ? message : Buffer.from(message)`. -/
def bytesOf : Payload → List Nat
  | .buf b => b
  | .str t => strBytes t

/-- The broker round-trips a method can issue, in the order they appear in
the source. -/
inductive BrokerOp
  | connect (url : String)
  | createChannel
  | assertExchangeOp (exchange : String) (ty : ExchangeType) (durable : Bool)
  | assertQueueOp (queue : String) (opts : QueueOpts)
  | bindQueueOp (queue exchange routingKey : String)
  | sendToQueueOp (queue : String) (payload : List Nat) (opts : PublishOpts)
  | publishOp (exchange routingKey : String) (payload : List Nat) (opts : PublishOpts)
  | closeChannelOp
  | closeConnectionOp
deriving DecidableEq

/-- Notifications emitted on the event bus. -/
inductive Event
  | errorEv (message : String)
  | connectedEv
  | connectionClosedEv
  | messagePublishedEv
  | messageConsumedEv
  | disconnectedEv
deriving DecidableEq

/-- The mutable fields of the broker singleton.  `Connection` and `Channel`
handles are opaque in the source; they are modelled as `Nat` identifiers
drawn from the counter `nextId`, so that "returns the same channel" and
"creates a new channel" are expressible. -/
structure BrokerState where
  connection : Option Nat
  channel : Option Nat
  nextId : Nat
deriving DecidableEq

/-- Oracle for the external broker: which round-trips succeed and with
which error a failing one rejects (`none` = the awaited call resolves). -/
structure Env where
  connectRes : String → Option String
  createChannelRes : Option String
  opRes : BrokerOp → Option String
  closeChanRes : Option String
  closeConnRes : Option String

/-- Result of one method call: successor state, channel operations issued
in order, notifications emitted in order, and the promise outcome. -/
structure Outcome (α : Type) where
  state : BrokerState
  trace : List BrokerOp
  events : List Event
  result : Except String α

/-- A non-null delivery handed to the consume callback. -/
structure Msg where
  deliveryTag : Nat
  content : List Nat
deriving DecidableEq

/-- Acknowledgment calls a consume callback can issue on the channel. -/
inductive AckAction
  | ack
  | nack (allUpTo requeue : Bool)
deriving DecidableEq

/-- Observable behaviour of one invocation of the per-delivery closure:
which messages were handed to the caller's handler, which ack/nack calls
the dispatcher itself issued, which notifications it emitted, and whether
the closure's promise resolved or rejected. -/
structure DeliveryOutcome where
  calls : List Msg
  acks : List AckAction
  events : List Event
  result : Except String Unit

/-- Error message thrown by `init` on a falsy url. -/
def urlUndefinedMsg : String := "RabbitMQ connection URL is undefined."

/-- Channel-unavailable message of the direct variants. -/
def chanNotInitMsg : String := "RabbitMQ channel is not initialized. Call init() first."

/-- Channel-unavailable message of `ensureChannel` in the emitter variant. -/
def chanUnavailableMsg : String := "RabbitMQ channel is not initialized."

/-- JavaScript `String.prototype.trim` whitespace set (WhiteSpace and
LineTerminator code points). -/
def isJsWhitespace (c : Char) : Bool :=
  let n := c.toNat
  n = 9 || n = 10 || n = 11 || n = 12 || n = 13 || n = 32 ||
  n = 160 || n = 5760 || (8192 ≤ n && n ≤ 8202) || n = 8232 ||
  n = 8233 || n = 8239 || n = 8287 || n = 12288 || n = 65279

/-- Strip leading and trailing JS whitespace from a character list. -/
def trimChars (l : List Char) : List Char :=
  ((l.dropWhile isJsWhitespace).reverse.dropWhile isJsWhitespace).reverse

/-- `url.trim()`. -/
def jsTrim (s : String) : String :=
  String.mk (trimChars s.data)

/-- Issue a list of broker operations in order inside one `try` block:
stop at the first failing operation and report its error. -/
def runOps (env : Env) : List BrokerOp → List BrokerOp × Option String
  | [] => ([], none)
  | op :: rest =>
    match env.opRes op with
    | some e => ([op], some e)
    | none =>
      let r := runOps env rest
      (op :: r.1, r.2)

namespace Emitter

/-- `init(url)` of the event-emitter variant: on a falsy url it emits an
error event and returns (it does not reject); otherwise it connects with
`url.trim()`, registers a close listener, and creates the channel, its
`catch` emitting the failure and rethrowing. -/
def init (env : Env) (s : BrokerState) (url : String) : Outcome Unit :=
  if url = "" then
    ⟨s, [], [.errorEv urlUndefinedMsg], .ok ()⟩
  else
    let u := jsTrim url
    match env.connectRes u with
    | some e => ⟨s, [.connect u], [.errorEv e], .error e⟩
    | none =>
      let conn := s.nextId
      let s1 : BrokerState := ⟨some conn, s.channel, s.nextId + 1⟩
      match env.createChannelRes with
      | some e => ⟨s1, [.connect u, .createChannel], [.errorEv e], .error e⟩
      | none =>
        ⟨⟨some conn, some s1.nextId, s1.nextId + 1⟩,
          [.connect u, .createChannel], [], .ok ()⟩

/-- `ensureChannel()`: return the stored channel if present; otherwise
create one over a live connection; otherwise emit and throw the
channel-unavailable error. -/
def ensureChannel (env : Env) (s : BrokerState) : Outcome Nat :=
  match s.channel with
  | some ch => ⟨s, [], [], .ok ch⟩
  | none =>
    match s.connection with
    | some _ =>
      match env.createChannelRes with
      | some e => ⟨s, [.createChannel], [], .error e⟩
      | none =>
        ⟨⟨s.connection, some s.nextId, s.nextId + 1⟩, [.createChannel], [], .ok s.nextId⟩
    | none =>
      ⟨s, [], [.errorEv chanUnavailableMsg], .error chanUnavailableMsg⟩

/-- `assertExchange(exchange, type, options = { durable: true })`:
every failure (channel acquisition included) is caught and emitted;
the call itself always resolves. -/
def assertExchange (env : Env) (s : BrokerState) (exchange : String)
    (ty : ExchangeType) (durable : Bool) : Outcome Unit :=
  let ec := ensureChannel env s
  match ec.result with
  | .error e => ⟨ec.state, ec.trace, ec.events ++ [.errorEv e], .ok ()⟩
  | .ok _ =>
    let op := BrokerOp.assertExchangeOp exchange ty durable
    match env.opRes op with
    | some e => ⟨ec.state, ec.trace ++ [op], ec.events ++ [.errorEv e], .ok ()⟩
    | none => ⟨ec.state, ec.trace ++ [op], ec.events, .ok ()⟩

/-- `setupQueue(queue, options = {})`: catch-and-emit wrapper around
`assertQueue`. -/
def setupQueue (env : Env) (s : BrokerState) (queue : String)
    (opts : QueueOpts) : Outcome Unit :=
  let ec := ensureChannel env s
  match ec.result with
  | .error e => ⟨ec.state, ec.trace, ec.events ++ [.errorEv e], .ok ()⟩
  | .ok _ =>
    let op := BrokerOp.assertQueueOp queue opts
    match env.opRes op with
    | some e => ⟨ec.state, ec.trace ++ [op], ec.events ++ [.errorEv e], .ok ()⟩
    | none => ⟨ec.state, ec.trace ++ [op], ec.events, .ok ()⟩

/-- `bindQueue(queue, exchange, routingKey)`: catch-and-emit wrapper. -/
def bindQueue (env : Env) (s : BrokerState) (queue exchange routingKey : String) :
    Outcome Unit :=
  let ec := ensureChannel env s
  match ec.result with
  | .error e => ⟨ec.state, ec.trace, ec.events ++ [.errorEv e], .ok ()⟩
  | .ok _ =>
    let op := BrokerOp.bindQueueOp queue exchange routingKey
    match env.opRes op with
    | some e => ⟨ec.state, ec.trace ++ [op], ec.events ++ [.errorEv e], .ok ()⟩
    | none => ⟨ec.state, ec.trace ++ [op], ec.events, .ok ()⟩

/-- `publish(queue, message, options = {})`: assert the queue durable,
then `sendToQueue` with the byte payload; failures are caught and
emitted, the call resolves. -/
def publish (env : Env) (s : BrokerState) (queue : String) (message : Payload)
    (opts : PublishOpts) : Outcome Unit :=
  let ec := ensureChannel env s
  match ec.result with
  | .error e => ⟨ec.state, ec.trace, ec.events ++ [.errorEv e], .ok ()⟩
  | .ok _ =>
    let aop := BrokerOp.assertQueueOp queue ⟨true, none⟩
    match env.opRes aop with
    | some e => ⟨ec.state, ec.trace ++ [aop], ec.events ++ [.errorEv e], .ok ()⟩
    | none =>
      ⟨ec.state, ec.trace ++ [aop, .sendToQueueOp queue (bytesOf message) opts],
        ec.events, .ok ()⟩

/-- `publishToExchange(exchange, routingKey, message, type = "topic",
options = {})`: assert the exchange durable with the caller-supplied
type, then publish; failures are caught and emitted, the call resolves. -/
def publishToExchange (env : Env) (s : BrokerState) (exchange routingKey : String)
    (message : Payload) (ty : ExchangeType) (opts : PublishOpts) : Outcome Unit :=
  let ec := ensureChannel env s
  match ec.result with
  | .error e => ⟨ec.state, ec.trace, ec.events ++ [.errorEv e], .ok ()⟩
  | .ok _ =>
    let aop := BrokerOp.assertExchangeOp exchange ty true
    match env.opRes aop with
    | some e => ⟨ec.state, ec.trace ++ [aop], ec.events ++ [.errorEv e], .ok ()⟩
    | none =>
      ⟨ec.state, ec.trace ++ [aop, .publishOp exchange routingKey (bytesOf message) opts],
        ec.events, .ok ()⟩

/-- `setupDeadLetterQueue(queue, dlx, dlq, dlxType = "topic",
dlqRoutingKey = "#")`: assert the dead-letter exchange, assert the
dead-letter queue durable, bind it, then assert the primary queue durable
with the dead-letter-exchange argument; the first failure is caught and
emitted. -/
def setupDeadLetterQueue (env : Env) (s : BrokerState) (queue dlx dlq : String)
    (dlxType : ExchangeType) (dlqRoutingKey : String) : Outcome Unit :=
  let ec := ensureChannel env s
  match ec.result with
  | .error e => ⟨ec.state, ec.trace, ec.events ++ [.errorEv e], .ok ()⟩
  | .ok _ =>
    match runOps env
        [.assertExchangeOp dlx dlxType true,
         .assertQueueOp dlq ⟨true, none⟩,
         .bindQueueOp dlq dlx dlqRoutingKey,
         .assertQueueOp queue ⟨true, some dlx⟩] with
    | (tr, some e) => ⟨ec.state, ec.trace ++ tr, ec.events ++ [.errorEv e], .ok ()⟩
    | (tr, none) => ⟨ec.state, ec.trace ++ tr, ec.events, .ok ()⟩

/-- The per-delivery closure installed by `consume` (delegated
acknowledgment): a null delivery is skipped; otherwise the handler is
awaited with the message and the channel, a rejection being caught and
emitted as an error event.  The dispatcher itself issues no ack/nack. -/
def handleDelivery (onMessage : Msg → Except String Unit) (msg : Option Msg) :
    DeliveryOutcome :=
  match msg with
  | none => ⟨[], [], [], .ok ()⟩
  | some m =>
    match onMessage m with
    | .ok _ => ⟨[m], [], [], .ok ()⟩
    | .error e => ⟨[m], [], [.errorEv e], .ok ()⟩

end Emitter

namespace Direct

/-- `init(url)` of the direct variant: throws on a falsy url, otherwise
connects with `url.trim()` and creates the channel, the `catch`
rethrowing any failure. -/
def init (env : Env) (s : BrokerState) (url : String) : Outcome Unit :=
  if url = "" then
    ⟨s, [], [], .error urlUndefinedMsg⟩
  else
    let u := jsTrim url
    match env.connectRes u with
    | some e => ⟨s, [.connect u], [], .error e⟩
    | none =>
      let conn := s.nextId
      let s1 : BrokerState := ⟨some conn, s.channel, s.nextId + 1⟩
      match env.createChannelRes with
      | some e => ⟨s1, [.connect u, .createChannel], [], .error e⟩
      | none =>
        ⟨⟨some conn, some s1.nextId, s1.nextId + 1⟩,
          [.connect u, .createChannel], [], .ok ()⟩

/-- `publish(queue, message, options = {})`: throws if the channel is
absent; asserts the queue durable, then sends the byte payload; a broker
rejection is rethrown. -/
def publish (env : Env) (s : BrokerState) (queue : String) (message : Payload)
    (opts : PublishOpts) : Outcome Unit :=
  match s.channel with
  | none => ⟨s, [], [], .error chanNotInitMsg⟩
  | some _ =>
    let aop := BrokerOp.assertQueueOp queue ⟨true, none⟩
    match env.opRes aop with
    | some e => ⟨s, [aop], [], .error e⟩
    | none =>
      ⟨s, [aop, .sendToQueueOp queue (bytesOf message) opts], [], .ok ()⟩

/-- `assertExchange(exchange, type, options = { durable: true })`: throws
if the channel is absent; a broker rejection is logged and rethrown. -/
def assertExchange (env : Env) (s : BrokerState) (exchange : String)
    (ty : ExchangeType) (durable : Bool) : Outcome Unit :=
  match s.channel with
  | none => ⟨s, [], [], .error chanNotInitMsg⟩
  | some _ =>
    let op := BrokerOp.assertExchangeOp exchange ty durable
    match env.opRes op with
    | some e => ⟨s, [op], [], .error e⟩
    | none => ⟨s, [op], [], .ok ()⟩

/-- `publishToExchange(exchange, routingKey, message, type = "topic",
options = {})`: throws if the channel is absent; asserts the exchange
durable with the caller-supplied type via `this.assertExchange`, then
publishes; failures are rethrown. -/
def publishToExchange (env : Env) (s : BrokerState) (exchange routingKey : String)
    (message : Payload) (ty : ExchangeType) (opts : PublishOpts) : Outcome Unit :=
  match s.channel with
  | none => ⟨s, [], [], .error chanNotInitMsg⟩
  | some _ =>
    let aop := BrokerOp.assertExchangeOp exchange ty true
    match env.opRes aop with
    | some e => ⟨s, [aop], [], .error e⟩
    | none =>
      ⟨s, [aop, .publishOp exchange routingKey (bytesOf message) opts], [], .ok ()⟩

/-- `setupQueue(queue, options = {})`: throws if the channel is absent;
a broker rejection is rethrown. -/
def setupQueue (env : Env) (s : BrokerState) (queue : String)
    (opts : QueueOpts) : Outcome Unit :=
  match s.channel with
  | none => ⟨s, [], [], .error chanNotInitMsg⟩
  | some _ =>
    let op := BrokerOp.assertQueueOp queue opts
    match env.opRes op with
    | some e => ⟨s, [op], [], .error e⟩
    | none => ⟨s, [op], [], .ok ()⟩

/-- `bindQueue(queue, exchange, routingKey)`: throws if the channel is
absent; a broker rejection is rethrown. -/
def bindQueue (env : Env) (s : BrokerState) (queue exchange routingKey : String) :
    Outcome Unit :=
  match s.channel with
  | none => ⟨s, [], [], .error chanNotInitMsg⟩
  | some _ =>
    let op := BrokerOp.bindQueueOp queue exchange routingKey
    match env.opRes op with
    | some e => ⟨s, [op], [], .error e⟩
    | none => ⟨s, [op], [], .ok ()⟩

/-- `setupDeadLetterQueue(queue, dlx, dlq, dlxType = "topic")`: assert
the dead-letter exchange, assert the dead-letter queue durable, bind it
with routing key `"#"`, then assert the primary queue durable with the
dead-letter-exchange argument; the first failure is rethrown. -/
def setupDeadLetterQueue (env : Env) (s : BrokerState) (queue dlx dlq : String)
    (dlxType : ExchangeType) : Outcome Unit :=
  match s.channel with
  | none => ⟨s, [], [], .error chanNotInitMsg⟩
  | some _ =>
    match runOps env
        [.assertExchangeOp dlx dlxType true,
         .assertQueueOp dlq ⟨true, none⟩,
         .bindQueueOp dlq dlx "#",
         .assertQueueOp queue ⟨true, some dlx⟩] with
    | (tr, some e) => ⟨s, tr, [], .error e⟩
    | (tr, none) => ⟨s, tr, [], .ok ()⟩

/-- The per-delivery closure installed by `consume` (managed
acknowledgment): a null delivery is skipped; otherwise the handler is
awaited and the message is acked on success, or nacked with
`nack(msg, false, true)` (requeue) when the handler rejects.  This
variant has no event bus. -/
def handleDelivery (onMessage : Msg → Except String Unit) (msg : Option Msg) :
    DeliveryOutcome :=
  match msg with
  | none => ⟨[], [], [], .ok ()⟩
  | some m =>
    match onMessage m with
    | .ok _ => ⟨[m], [.ack], [], .ok ()⟩
    | .error _ => ⟨[m], [.nack false true], [], .ok ()⟩

/-- `closeConnection()`: one `try` block closes the channel (nulling it)
and then the connection (nulling it); any failure is caught and only
logged, so the call always resolves — but a channel-close failure skips
the connection close entirely. -/
def closeConnection (env : Env) (s : BrokerState) : Outcome Unit :=
  match s.channel with
  | some _ =>
    match env.closeChanRes with
    | some _ => ⟨s, [.closeChannelOp], [], .ok ()⟩
    | none =>
      match s.connection with
      | some _ =>
        match env.closeConnRes with
        | some _ =>
          ⟨⟨s.connection, none, s.nextId⟩, [.closeChannelOp, .closeConnectionOp], [], .ok ()⟩
        | none =>
          ⟨⟨none, none, s.nextId⟩, [.closeChannelOp, .closeConnectionOp], [], .ok ()⟩
      | none => ⟨⟨none, none, s.nextId⟩, [.closeChannelOp], [], .ok ()⟩
  | none =>
    match s.connection with
    | some _ =>
      match env.closeConnRes with
      | some _ => ⟨s, [.closeConnectionOp], [], .ok ()⟩
      | none => ⟨⟨none, none, s.nextId⟩, [.closeConnectionOp], [], .ok ()⟩
    | none => ⟨s, [], [], .ok ()⟩

end Direct

namespace P5

/-- `init(url)` of the plain TS variant: throws on a falsy url, connects
with `url.trim()`, creates the channel, and emits `"connected"` on
success; a failure is rethrown. -/
def init (env : Env) (s : BrokerState) (url : String) : Outcome Unit :=
  if url = "" then
    ⟨s, [], [], .error urlUndefinedMsg⟩
  else
    let u := jsTrim url
    match env.connectRes u with
    | some e => ⟨s, [.connect u], [], .error e⟩
    | none =>
      let conn := s.nextId
      let s1 : BrokerState := ⟨some conn, s.channel, s.nextId + 1⟩
      match env.createChannelRes with
      | some e => ⟨s1, [.connect u, .createChannel], [], .error e⟩
      | none =>
        ⟨⟨some conn, some s1.nextId, s1.nextId + 1⟩,
          [.connect u, .createChannel], [.connectedEv], .ok ()⟩

/-- `assertExchange(exchange, type, options = { durable: true })` of the
plain TS variant: throws if the channel is absent; the assertion is not
wrapped in a `try`, so a broker rejection propagates; nothing is
emitted. -/
def assertExchange (env : Env) (s : BrokerState) (exchange : String)
    (ty : ExchangeType) (durable : Bool) : Outcome Unit :=
  match s.channel with
  | none => ⟨s, [], [], .error chanNotInitMsg⟩
  | some _ =>
    let op := BrokerOp.assertExchangeOp exchange ty durable
    match env.opRes op with
    | some e => ⟨s, [op], [], .error e⟩
    | none => ⟨s, [op], [], .ok ()⟩

/-- `publishToExchange(exchange, routingKey, message, options = {})` of
the plain TS variant: it takes no exchange-type parameter and always
asserts the exchange with type `"topic"`; on success it publishes and
emits `"messagePublished"`; failures are rethrown. -/
def publishToExchange (env : Env) (s : BrokerState) (exchange routingKey : String)
    (message : Payload) (opts : PublishOpts) : Outcome Unit :=
  match s.channel with
  | none => ⟨s, [], [], .error chanNotInitMsg⟩
  | some _ =>
    let aop := BrokerOp.assertExchangeOp exchange .topic true
    match env.opRes aop with
    | some e => ⟨s, [aop], [], .error e⟩
    | none =>
      ⟨s, [aop, .publishOp exchange routingKey (bytesOf message) opts],
        [.messagePublishedEv], .ok ()⟩

end P5

/-- Environment in which every broker round-trip succeeds. -/
def env0 : Env := ⟨fun _ => none, none, fun _ => none, none, none⟩

/-- Environment in which every channel operation is rejected by the
broker with the error `"rejected"` (e.g. an exchange-type conflict). -/
def envFail : Env := ⟨fun _ => none, none, fun _ => some "rejected", none, none⟩

/-- Environment in which closing the channel fails. -/
def envChanFail : Env := ⟨fun _ => none, none, fun _ => none, some "channel close failed", none⟩

/-- A string all of whose characters are JavaScript whitespace. -/
def wsOnly (s : String) : Prop := ∀ c ∈ s.data, isJsWhitespace c = true

instance (s : String) : Decidable (wsOnly s) := by
  unfold wsOnly
  infer_instance

theorem dropWhile_all_append (p : Char → Bool) :
    ∀ (w l : List Char), (∀ c ∈ w, p c = true) →
      List.dropWhile p (w ++ l) = List.dropWhile p l
  | [], _, _ => rfl
  | a :: w, l, h => by
    have ha : p a = true := h a (by simp)
    simp only [List.cons_append, List.dropWhile_cons, ha, if_true]
    exact dropWhile_all_append p w l (fun c hc => h c (by simp [hc]))

theorem dropWhile_all_eq_nil {w : List Char} (h : ∀ c ∈ w, isJsWhitespace c = true) :
    List.dropWhile isJsWhitespace w = [] := by
  have := dropWhile_all_append isJsWhitespace w [] h
  simpa using this

theorem trimChars_ws_append {w l : List Char} (h : ∀ c ∈ w, isJsWhitespace c = true) :
    trimChars (w ++ l) = trimChars l := by
  unfold trimChars
  rw [dropWhile_all_append isJsWhitespace w l h]

theorem trimChars_append_ws {l w : List Char} (h : ∀ c ∈ w, isJsWhitespace c = true) :
    trimChars (l ++ w) = trimChars l := by
  induction l with
  | nil => simp [trimChars, dropWhile_all_eq_nil h]
  | cons a l ih =>
    cases hpa : isJsWhitespace a with
    | true =>
      unfold trimChars at ih ⊢
      simp only [List.cons_append, List.dropWhile_cons, hpa, if_true]
      simpa using ih
    | false =>
      unfold trimChars
      simp only [List.cons_append, List.dropWhile_cons, hpa, Bool.false_eq_true, if_false]
      have hrw : (a :: (l ++ w)).reverse = w.reverse ++ (a :: l).reverse := by
        rw [show a :: (l ++ w) = (a :: l) ++ w from rfl, List.reverse_append]
      rw [hrw, dropWhile_all_append isJsWhitespace w.reverse (a :: l).reverse
        (fun c hc => h c (List.mem_reverse.mp hc))]

theorem trimChars_surround {w1 w2 c : List Char}
    (h1 : ∀ x ∈ w1, isJsWhitespace x = true)
    (h2 : ∀ x ∈ w2, isJsWhitespace x = true) :
    trimChars (w1 ++ c ++ w2) = trimChars c := by
  rw [List.append_assoc]
  rw [trimChars_ws_append h1]
  exact trimChars_append_ws h2

theorem jsTrim_surround {w1 w2 c : String}
    (h1 : wsOnly w1) (h2 : wsOnly w2) :
    jsTrim (w1 ++ c ++ w2) = jsTrim c := by
  unfold jsTrim
  have hdata : (w1 ++ c ++ w2).data = w1.data ++ c.data ++ w2.data := by
    simp [String.data_append]
  rw [hdata, trimChars_surround h1 h2]

theorem direct_init_trace_head (env : Env) (s : BrokerState) {url : String}
    (h : url ≠ "") :
    (Direct.init env s url).trace.head? = some (.connect (jsTrim url)) := by
  unfold Direct.init
  rw [if_neg h]
  cases hc : env.connectRes (jsTrim url) with
  | none => cases hcc : env.createChannelRes <;> simp [hc, hcc]
  | some e => simp [hc]

theorem emitter_init_trace_head (env : Env) (s : BrokerState) {url : String}
    (h : url ≠ "") :
    (Emitter.init env s url).trace.head? = some (.connect (jsTrim url)) := by
  unfold Emitter.init
  rw [if_neg h]
  cases hc : env.connectRes (jsTrim url) with
  | none => cases hcc : env.createChannelRes <;> simp [hc, hcc]
  | some e => simp [hc]

theorem p5_init_trace_head (env : Env) (s : BrokerState) {url : String}
    (h : url ≠ "") :
    (P5.init env s url).trace.head? = some (.connect (jsTrim url)) := by
  unfold P5.init
  rw [if_neg h]
  cases hc : env.connectRes (jsTrim url) with
  | none => cases hcc : env.createChannelRes <;> simp [hc, hcc]
  | some e => simp [hc]

/-- Claim C1: in the managed-acknowledgment consume callback, a null
delivery is ignored (the handler is never invoked, no ack/nack is
issued); for a non-null delivery the message is acknowledged exactly
once if and only if the handler resolves, and nacked with requeue=true
(and never acked) if and only if the handler rejects. -/
theorem claim1_managed_ack_consume (h : Msg → Except String Unit) (m : Msg) :
    (Direct.handleDelivery h none).calls = [] ∧
    (Direct.handleDelivery h none).acks = [] ∧
    (Direct.handleDelivery h (some m)).calls = [m] ∧
    ((Direct.handleDelivery h (some m)).acks = [.ack] ↔ h m = .ok ()) ∧
    ((Direct.handleDelivery h (some m)).acks = [.nack false true] ↔
      ∃ e, h m = .error e) := by
  rcases hm : h m with e | u
  · simp [Direct.handleDelivery, hm]
  · cases u
    simp [Direct.handleDelivery, hm]

/-- Claim C8: in the delegated-acknowledgment consume callback the
dispatcher issues zero ack and zero nack calls for every delivery and
every handler outcome; a handler rejection is caught, reported as an
error notification, and never propagates (the closure resolves). -/
theorem claim8_delegated_ack (h : Msg → Except String Unit) (m : Msg) :
    (Emitter.handleDelivery h none).acks = [] ∧
    (Emitter.handleDelivery h (some m)).acks = [] ∧
    (Emitter.handleDelivery h (some m)).result = .ok () ∧
    (∀ e, h m = .error e →
      (Emitter.handleDelivery h (some m)).events = [.errorEv e]) := by
  rcases hm : h m with e | u
  · simp [Emitter.handleDelivery, hm]
  · cases u
    simp [Emitter.handleDelivery, hm]

/-- Witness for C8 at a rejecting handler and a concrete delivery. -/
theorem claim8_delegated_ack_witness :
    (Emitter.handleDelivery (fun _ => .error "boom") (some ⟨0, []⟩)).events =
      [.errorEv "boom"] :=
  (claim8_delegated_ack (fun _ => .error "boom") ⟨0, []⟩).2.2.2 "boom" rfl

/-- Claim C9, amended: on an empty url the event-emitter variant's `init`
emits the connection error and resolves without failing the call — it
does not reject — while the direct variants reject; in every variant no
connect attempt is made and the stored connection and channel are left
unchanged. -/
theorem claim9_empty_url_amended (env : Env) (s : BrokerState) :
    Emitter.init env s "" = ⟨s, [], [.errorEv urlUndefinedMsg], .ok ()⟩ ∧
    Direct.init env s "" = ⟨s, [], [], .error urlUndefinedMsg⟩ ∧
    P5.init env s "" = ⟨s, [], [], .error urlUndefinedMsg⟩ :=
  ⟨rfl, rfl, rfl⟩

/-- Counterexample to C9 as stated: on the cited event-emitter variant,
`init("")` resolves successfully instead of failing the call (the error
only appears as a notification). -/
theorem claim9_empty_url_counterexample :
    (Emitter.init env0 ⟨none, none, 0⟩ "").result = .ok () ∧
    (Emitter.init env0 ⟨none, none, 0⟩ "").trace = [] ∧
    (Emitter.init env0 ⟨none, none, 0⟩ "").state = ⟨none, none, 0⟩ ∧
    (Emitter.init env0 ⟨none, none, 0⟩ "").events = [.errorEv urlUndefinedMsg] :=
  ⟨rfl, rfl, rfl, rfl⟩

/-- Claim C3: `ensureChannel()` returns the stored channel unchanged when
one is present (no allocation, so consecutive calls agree); with no
channel but a live connection it creates exactly one new channel, returns
it, and a subsequent call reuses it without creating another; with
neither it fails with the channel-unavailable error and creates
nothing. -/
theorem claim3_ensure_channel (env : Env) (s : BrokerState) (ch c : Nat) :
    (s.channel = some ch → Emitter.ensureChannel env s = ⟨s, [], [], .ok ch⟩) ∧
    (s.channel = none → s.connection = some c → env.createChannelRes = none →
      Emitter.ensureChannel env s =
        ⟨⟨s.connection, some s.nextId, s.nextId + 1⟩, [.createChannel], [], .ok s.nextId⟩ ∧
      Emitter.ensureChannel env ⟨s.connection, some s.nextId, s.nextId + 1⟩ =
        ⟨⟨s.connection, some s.nextId, s.nextId + 1⟩, [], [], .ok s.nextId⟩) ∧
    (s.channel = none → s.connection = none →
      Emitter.ensureChannel env s =
        ⟨s, [], [.errorEv chanUnavailableMsg], .error chanUnavailableMsg⟩) := by
  obtain ⟨conn, chan, nid⟩ := s
  refine ⟨fun h1 => ?_, fun h1 h2 h3 => ?_, fun h1 h2 => ?_⟩
  · simp only at h1
    subst h1
    rfl
  · simp only at h1 h2
    subst h1
    subst h2
    exact ⟨by simp [Emitter.ensureChannel, h3], rfl⟩
  · simp only at h1 h2
    subst h1
    subst h2
    rfl

/-- Witness for C3: channel lost (live connection, absent channel) —
one new channel is created, and the follow-up call reuses it. -/
theorem claim3_ensure_channel_witness :
    Emitter.ensureChannel env0 ⟨some 0, none, 1⟩ =
      ⟨⟨some 0, some 1, 2⟩, [.createChannel], [], .ok 1⟩ ∧
    Emitter.ensureChannel env0 ⟨some 0, some 1, 2⟩ =
      ⟨⟨some 0, some 1, 2⟩, [], [], .ok 1⟩ :=
  (claim3_ensure_channel env0 ⟨some 0, none, 1⟩ 0 0).2.1 rfl rfl rfl

/-- Claim C2: with a live channel (and a broker accepting the
declarations) `setupDeadLetterQueue(queue, dlx, dlq, dlxType,
dlqRoutingKey)` issues exactly, in order: assert exchange `dlx` of type
`dlxType` durable; assert queue `dlq` durable; bind `dlq` to `dlx` with
`dlqRoutingKey`; assert the primary `queue` durable with the
dead-letter-exchange argument set to `dlx` — and nothing else. -/
theorem claim2_dead_letter_setup_order (env : Env) (s : BrokerState) (ch : Nat)
    (queue dlx dlq dlqRoutingKey : String) (dlxType : ExchangeType)
    (hch : s.channel = some ch) (hok : ∀ op, env.opRes op = none) :
    (Emitter.setupDeadLetterQueue env s queue dlx dlq dlxType dlqRoutingKey).trace =
      [.assertExchangeOp dlx dlxType true,
       .assertQueueOp dlq ⟨true, none⟩,
       .bindQueueOp dlq dlx dlqRoutingKey,
       .assertQueueOp queue ⟨true, some dlx⟩] ∧
    (Emitter.setupDeadLetterQueue env s queue dlx dlq dlxType dlqRoutingKey).result =
      .ok () := by
  obtain ⟨conn, chan, nid⟩ := s
  simp only at hch
  subst hch
  constructor <;>
    simp [Emitter.setupDeadLetterQueue, Emitter.ensureChannel, runOps, hok]

/-- Witness for C2 at the spec's example
`setupDeadLetterQueue("orders", "orders.dlx", "orders.dlq")` (defaults
`dlxType = topic`, `dlqRoutingKey = "#"`). -/
theorem claim2_dead_letter_setup_order_witness :
    (Emitter.setupDeadLetterQueue env0 ⟨some 0, some 1, 2⟩
        "orders" "orders.dlx" "orders.dlq" .topic "#").trace =
      [.assertExchangeOp "orders.dlx" .topic true,
       .assertQueueOp "orders.dlq" ⟨true, none⟩,
       .bindQueueOp "orders.dlq" "orders.dlx" "#",
       .assertQueueOp "orders" ⟨true, some "orders.dlx"⟩] ∧
    (Emitter.setupDeadLetterQueue env0 ⟨some 0, some 1, 2⟩
        "orders" "orders.dlx" "orders.dlq" .topic "#").result = .ok () :=
  claim2_dead_letter_setup_order env0 ⟨some 0, some 1, 2⟩ 1
    "orders" "orders.dlx" "orders.dlq" "#" .topic rfl (fun _ => rfl)

/-- Counterexample to C4 as stated: at a live channel with the broker
rejecting the declaration, the direct variant's `assertExchange`
propagates the failure but emits no error notification, and the
event-emitter variant's `assertExchange` emits but resolves successfully
— no variant does both. -/
theorem claim4_failure_surfacing_counterexample :
    (Direct.assertExchange envFail ⟨some 0, some 1, 2⟩ "ex" .topic true).result =
      .error "rejected" ∧
    (Direct.assertExchange envFail ⟨some 0, some 1, 2⟩ "ex" .topic true).events = [] ∧
    (Emitter.assertExchange envFail ⟨some 0, some 1, 2⟩ "ex" .topic true).result =
      .ok () ∧
    (Emitter.assertExchange envFail ⟨some 0, some 1, 2⟩ "ex" .topic true).events =
      [.errorEv "rejected"] :=
  ⟨rfl, rfl, rfl, rfl⟩

/-- Claim C4, amended: a failing topology or publish operation is
surfaced exactly one way per variant — the event-emitter variant emits
the error on the diagnostics bus and the call resolves without failing,
while the direct variants propagate the failure to the immediate caller
and emit no error notification. -/
theorem claim4_failure_surfacing_amended (env : Env) (s : BrokerState) (ch : Nat)
    (ex q rk : String) (ty : ExchangeType) (qopts : QueueOpts)
    (popts : PublishOpts) (m : Payload) (e : String)
    (hch : s.channel = some ch) (hop : ∀ op, env.opRes op = some e) :
    ((Emitter.assertExchange env s ex ty true).events = [.errorEv e] ∧
     (Emitter.assertExchange env s ex ty true).result = .ok ()) ∧
    ((Emitter.setupQueue env s q qopts).events = [.errorEv e] ∧
     (Emitter.setupQueue env s q qopts).result = .ok ()) ∧
    ((Emitter.bindQueue env s q ex rk).events = [.errorEv e] ∧
     (Emitter.bindQueue env s q ex rk).result = .ok ()) ∧
    ((Emitter.publish env s q m popts).events = [.errorEv e] ∧
     (Emitter.publish env s q m popts).result = .ok ()) ∧
    ((Emitter.publishToExchange env s ex rk m ty popts).events = [.errorEv e] ∧
     (Emitter.publishToExchange env s ex rk m ty popts).result = .ok ()) ∧
    ((Direct.assertExchange env s ex ty true).result = .error e ∧
     (Direct.assertExchange env s ex ty true).events = []) ∧
    ((Direct.setupQueue env s q qopts).result = .error e ∧
     (Direct.setupQueue env s q qopts).events = []) ∧
    ((Direct.bindQueue env s q ex rk).result = .error e ∧
     (Direct.bindQueue env s q ex rk).events = []) ∧
    ((Direct.publish env s q m popts).result = .error e ∧
     (Direct.publish env s q m popts).events = []) ∧
    ((Direct.publishToExchange env s ex rk m ty popts).result = .error e ∧
     (Direct.publishToExchange env s ex rk m ty popts).events = []) ∧
    ((P5.assertExchange env s ex ty true).result = .error e ∧
     (P5.assertExchange env s ex ty true).events = []) := by
  obtain ⟨conn, chan, nid⟩ := s
  simp only at hch
  subst hch
  simp [Emitter.assertExchange, Emitter.setupQueue, Emitter.bindQueue,
    Emitter.publish, Emitter.publishToExchange, Emitter.ensureChannel,
    Direct.assertExchange, Direct.setupQueue, Direct.bindQueue,
    Direct.publish, Direct.publishToExchange, P5.assertExchange, hop]

/-- Witness for the amended C4 at a concrete failing broker. -/
theorem claim4_failure_surfacing_amended_witness :
    (Emitter.setupQueue envFail ⟨some 0, some 1, 2⟩ "q" ⟨true, none⟩).events =
      [.errorEv "rejected"] ∧
    (Emitter.setupQueue envFail ⟨some 0, some 1, 2⟩ "q" ⟨true, none⟩).result =
      .ok () :=
  (claim4_failure_surfacing_amended envFail ⟨some 0, some 1, 2⟩ 1 "ex" "q" "rk"
    .topic ⟨true, none⟩ ⟨none⟩ (.buf []) "rejected" rfl (fun _ => rfl)).2.1

/-- Counterexample to C5 as stated: when closing the channel fails, the
connection close is never attempted (no close-connection operation is
issued and the connection reference stays set), contradicting "a failure
to close the channel does not prevent the subsequent attempt to close
the connection". -/
theorem claim5_close_counterexample :
    (Direct.closeConnection envChanFail ⟨some 0, some 1, 2⟩).trace =
      [.closeChannelOp] ∧
    (Direct.closeConnection envChanFail ⟨some 0, some 1, 2⟩).state =
      ⟨some 0, some 1, 2⟩ ∧
    (Direct.closeConnection envChanFail ⟨some 0, some 1, 2⟩).result = .ok () :=
  ⟨rfl, rfl, rfl⟩

/-- Claim C5, amended: `closeConnection()` never throws past the call,
and calling it with channel and connection already absent is a no-op
producing no error; however, a failure while closing the channel aborts
the sequence, so the subsequent connection close is not attempted and
the connection reference is left unchanged. -/
theorem claim5_close_amended (env : Env) (s : BrokerState) :
    (Direct.closeConnection env s).result = .ok () ∧
    (s.channel = none → s.connection = none →
      Direct.closeConnection env s = ⟨s, [], [], .ok ()⟩) ∧
    (∀ e, env.closeChanRes = some e → s.channel.isSome = true →
      (Direct.closeConnection env s).trace = [.closeChannelOp] ∧
      (Direct.closeConnection env s).state = s) := by
  obtain ⟨conn, chan, nid⟩ := s
  refine ⟨?_, fun h1 h2 => ?_, fun e he hc => ?_⟩
  · cases chan <;> cases conn <;>
      simp [Direct.closeConnection] <;>
      rcases env.closeChanRes with _ | _ <;>
      rcases env.closeConnRes with _ | _ <;> simp
  · simp only at h1 h2
    subst h1
    subst h2
    rfl
  · simp only [Option.isSome] at hc
    rcases chan with _ | chv
    · simp at hc
    · cases conn <;> simp [Direct.closeConnection, he]

/-- Witness for the amended C5: double close on an already-closed broker
is a no-op, and a channel-close failure leaves the state untouched. -/
theorem claim5_close_amended_witness :
    Direct.closeConnection env0 ⟨none, none, 5⟩ = ⟨⟨none, none, 5⟩, [], [], .ok ()⟩ ∧
    (Direct.closeConnection envChanFail ⟨some 0, some 1, 2⟩).trace =
      [.closeChannelOp] :=
  ⟨(claim5_close_amended env0 ⟨none, none, 5⟩).2.1 rfl rfl,
   ((claim5_close_amended envChanFail ⟨some 0, some 1, 2⟩).2.2 "channel close failed"
      rfl rfl).1⟩

/-- Counterexample to C6 as stated: with a live channel and the broker
rejecting the exchange assertion (a type conflict), the event-emitter
variant's `publishToExchange` resolves successfully instead of failing
— the conflict only surfaces as an error notification (the publish is
indeed skipped). -/
theorem claim6_publish_to_exchange_counterexample :
    (Emitter.publishToExchange envFail ⟨some 0, some 1, 2⟩ "ex" "rk"
        (.buf []) .direct ⟨none⟩).result = .ok () ∧
    (Emitter.publishToExchange envFail ⟨some 0, some 1, 2⟩ "ex" "rk"
        (.buf []) .direct ⟨none⟩).events = [.errorEv "rejected"] ∧
    (Emitter.publishToExchange envFail ⟨some 0, some 1, 2⟩ "ex" "rk"
        (.buf []) .direct ⟨none⟩).trace = [.assertExchangeOp "ex" .direct true] :=
  ⟨rfl, rfl, rfl⟩

/-- Claim C6, amended: with a live channel `publishToExchange` asserts
the exchange durable with the caller-supplied type (default topic;
the plain TS variant takes no type parameter and always asserts topic)
before publishing, and an exchange-type conflict always prevents the
publish — but only the direct variants fail the call with the error;
the event-emitter variant emits it and resolves. -/
theorem claim6_publish_to_exchange_amended (env : Env) (s : BrokerState) (ch : Nat)
    (ex rk : String) (m : Payload) (ty : ExchangeType) (opts : PublishOpts)
    (hch : s.channel = some ch) :
    (env.opRes (.assertExchangeOp ex ty true) = none →
      (Emitter.publishToExchange env s ex rk m ty opts).trace =
        [.assertExchangeOp ex ty true, .publishOp ex rk (bytesOf m) opts] ∧
      (Direct.publishToExchange env s ex rk m ty opts).trace =
        [.assertExchangeOp ex ty true, .publishOp ex rk (bytesOf m) opts]) ∧
    (∀ e, env.opRes (.assertExchangeOp ex ty true) = some e →
      (Emitter.publishToExchange env s ex rk m ty opts).trace =
        [.assertExchangeOp ex ty true] ∧
      (Emitter.publishToExchange env s ex rk m ty opts).events = [.errorEv e] ∧
      (Emitter.publishToExchange env s ex rk m ty opts).result = .ok () ∧
      (Direct.publishToExchange env s ex rk m ty opts).trace =
        [.assertExchangeOp ex ty true] ∧
      (Direct.publishToExchange env s ex rk m ty opts).result = .error e) ∧
    (∀ e, env.opRes (.assertExchangeOp ex .topic true) = some e →
      (P5.publishToExchange env s ex rk m opts).trace =
        [.assertExchangeOp ex .topic true] ∧
      (P5.publishToExchange env s ex rk m opts).result = .error e) := by
  obtain ⟨conn, chan, nid⟩ := s
  simp only at hch
  subst hch
  refine ⟨fun hok => ?_, fun e he => ?_, fun e he => ?_⟩
  · simp [Emitter.publishToExchange, Emitter.ensureChannel,
      Direct.publishToExchange, hok]
  · simp [Emitter.publishToExchange, Emitter.ensureChannel,
      Direct.publishToExchange, he]
  · simp [P5.publishToExchange, he]

/-- Witness for the amended C6: a rejected exchange assertion stops the
publish in both variants; only the direct variant's call fails. -/
theorem claim6_publish_to_exchange_amended_witness :
    (Emitter.publishToExchange envFail ⟨some 0, some 1, 2⟩ "logs" "a.b"
        (.buf [7]) .fanout ⟨none⟩).trace = [.assertExchangeOp "logs" .fanout true] ∧
    (Emitter.publishToExchange envFail ⟨some 0, some 1, 2⟩ "logs" "a.b"
        (.buf [7]) .fanout ⟨none⟩).events = [.errorEv "rejected"] ∧
    (Emitter.publishToExchange envFail ⟨some 0, some 1, 2⟩ "logs" "a.b"
        (.buf [7]) .fanout ⟨none⟩).result = .ok () ∧
    (Direct.publishToExchange envFail ⟨some 0, some 1, 2⟩ "logs" "a.b"
        (.buf [7]) .fanout ⟨none⟩).trace = [.assertExchangeOp "logs" .fanout true] ∧
    (Direct.publishToExchange envFail ⟨some 0, some 1, 2⟩ "logs" "a.b"
        (.buf [7]) .fanout ⟨none⟩).result = .error "rejected" :=
  (claim6_publish_to_exchange_amended envFail ⟨some 0, some 1, 2⟩ 1 "logs" "a.b"
    (.buf [7]) .fanout ⟨none⟩ rfl).2.1 "rejected" rfl

/-- Claim C7: with a live channel, `publish` asserts the queue durable
and only then sends; the payload sent is the message itself for a
Buffer and the UTF-8 byte encoding for a string; when the assertion
fails no send happens.  Holds in both the direct and the event-emitter
variants. -/
theorem claim7_publish_assert_before_send (env : Env) (s : BrokerState) (ch : Nat)
    (q : String) (b : List Nat) (t : String) (opts : PublishOpts)
    (hch : s.channel = some ch) :
    (env.opRes (.assertQueueOp q ⟨true, none⟩) = none →
      (Direct.publish env s q (.buf b) opts).trace =
        [.assertQueueOp q ⟨true, none⟩, .sendToQueueOp q b opts] ∧
      (Direct.publish env s q (.str t) opts).trace =
        [.assertQueueOp q ⟨true, none⟩, .sendToQueueOp q (strBytes t) opts] ∧
      (Emitter.publish env s q (.buf b) opts).trace =
        [.assertQueueOp q ⟨true, none⟩, .sendToQueueOp q b opts] ∧
      (Emitter.publish env s q (.str t) opts).trace =
        [.assertQueueOp q ⟨true, none⟩, .sendToQueueOp q (strBytes t) opts]) ∧
    (∀ e m, env.opRes (.assertQueueOp q ⟨true, none⟩) = some e →
      (Direct.publish env s q m opts).trace = [.assertQueueOp q ⟨true, none⟩] ∧
      (Emitter.publish env s q m opts).trace = [.assertQueueOp q ⟨true, none⟩]) := by
  obtain ⟨conn, chan, nid⟩ := s
  simp only at hch
  subst hch
  refine ⟨fun hok => ?_, fun e m he => ?_⟩
  · simp [Direct.publish, Emitter.publish, Emitter.ensureChannel, hok, bytesOf]
  · simp [Direct.publish, Emitter.publish, Emitter.ensureChannel, he]

/-- Witness for C7: a concrete string publish asserts then sends the
UTF-8 bytes. -/
theorem claim7_publish_assert_before_send_witness :
    (Direct.publish env0 ⟨some 0, some 1, 2⟩ "q" (.str "hi") ⟨none⟩).trace =
      [.assertQueueOp "q" ⟨true, none⟩, .sendToQueueOp "q" (strBytes "hi") ⟨none⟩] :=
  ((claim7_publish_assert_before_send env0 ⟨some 0, some 1, 2⟩ 1 "q" [1, 2] "hi"
      ⟨none⟩ rfl).1 rfl).2.1

/-- Claim C10: every variant's `init` connects with the url stripped of
leading and trailing whitespace, so two init calls whose urls differ only
in surrounding whitespace issue the identical connect request. -/
theorem claim10_url_trim (env : Env) (s : BrokerState) (w1 w2 w3 w4 c : String)
    (h1 : wsOnly w1) (h2 : wsOnly w2) (h3 : wsOnly w3) (h4 : wsOnly w4)
    (ne1 : w1 ++ c ++ w2 ≠ "") (ne2 : w3 ++ c ++ w4 ≠ "") :
    (Direct.init env s (w1 ++ c ++ w2)).trace.head? =
      some (.connect (jsTrim c)) ∧
    (Direct.init env s (w3 ++ c ++ w4)).trace.head? =
      some (.connect (jsTrim c)) ∧
    (Emitter.init env s (w1 ++ c ++ w2)).trace.head? =
      some (.connect (jsTrim c)) ∧
    (Emitter.init env s (w3 ++ c ++ w4)).trace.head? =
      some (.connect (jsTrim c)) ∧
    (P5.init env s (w1 ++ c ++ w2)).trace.head? =
      some (.connect (jsTrim c)) ∧
    (P5.init env s (w3 ++ c ++ w4)).trace.head? =
      some (.connect (jsTrim c)) := by
  have e1 : jsTrim (w1 ++ c ++ w2) = jsTrim c := jsTrim_surround h1 h2
  have e2 : jsTrim (w3 ++ c ++ w4) = jsTrim c := jsTrim_surround h3 h4
  refine ⟨?_, ?_, ?_, ?_, ?_, ?_⟩
  · rw [direct_init_trace_head env s ne1, e1]
  · rw [direct_init_trace_head env s ne2, e2]
  · rw [emitter_init_trace_head env s ne1, e1]
  · rw [emitter_init_trace_head env s ne2, e2]
  · rw [p5_init_trace_head env s ne1, e1]
  · rw [p5_init_trace_head env s ne2, e2]

/-- Witness for C10: urls `" amqp://host"` and `"amqp://host\t"` issue
the same connect request `amqp://host`. -/
theorem claim10_url_trim_witness :
    (Direct.init env0 ⟨none, none, 0⟩ (" " ++ "amqp://host" ++ "")).trace.head? =
      some (.connect (jsTrim "amqp://host")) ∧
    (Direct.init env0 ⟨none, none, 0⟩ ("" ++ "amqp://host" ++ "\t")).trace.head? =
      some (.connect (jsTrim "amqp://host")) :=
  ⟨(claim10_url_trim env0 ⟨none, none, 0⟩ " " "" "" "\t" "amqp://host"
      (by decide) (by decide) (by decide) (by decide) (by decide) (by decide)).1,
   (claim10_url_trim env0 ⟨none, none, 0⟩ " " "" "" "\t" "amqp://host"
      (by decide) (by decide) (by decide) (by decide) (by decide) (by decide)).2.1⟩

end RabbitMQ
